import Mathlib

/-!
Verification of the query-construction and resilient-execution engine of the
autocurate-dashboard frontend (Dashboard.tsx and BaseChart.tsx).

The JavaScript string-rewriting functions are embedded as executable Lean
functions over `List Char`.  Regex replacement with the `g` flag is modelled
by a left-to-right scan that, at each position, either fires the (single)
pattern of that pass and continues after the matched text, or copies one
character; replacement text is never rescanned within the same pass, matching
the semantics of `String.prototype.replace` with a global regex.
-/

namespace Autocurate

/-- Single-quote character, kept out of string literals. -/
def sqc : Char := Char.ofNat 39

/-- Single-quote as a string. -/
def sq : String := String.mk [sqc]

/-- Wrap a string in single quotes, as SQL literals are written. -/
def quoted (s : String) : String := sq ++ s ++ sq

/-- JavaScript word character, the regex class backslash-w: ASCII letters, digits, underscore. -/
def isWordChar (c : Char) : Bool :=
  (c ≥ 'a' && c ≤ 'z') || (c ≥ 'A' && c ≤ 'Z') || (c ≥ '0' && c ≤ '9') || c = '_'

/-- JavaScript whitespace as matched by the regex class backslash-s (ASCII part). -/
def isSpaceChar (c : Char) : Bool :=
  c = ' ' || c = '\t' || c = '\n' || c = '\r' || c = '\x0b' || c = '\x0c'

/-- Lower-case an ASCII character, used for case-insensitive regex matching. -/
def lowAscii (c : Char) : Char :=
  if 'A' ≤ c ∧ c ≤ 'Z' then Char.ofNat (c.toNat + 32) else c

/-- Case-insensitive literal match: if `pat` (given lower case) is a prefix of
`cs` up to ASCII case, return the rest of `cs`. -/
def matchCI : List Char → List Char → Option (List Char)
  | [], cs => some cs
  | _ :: _, [] => none
  | p :: ps, c :: cs => if p = lowAscii c then matchCI ps cs else none

/-- Drop a maximal run of whitespace (regex backslash-s star). -/
def dropSpaces : List Char → List Char
  | [] => []
  | c :: cs => if isSpaceChar c then dropSpaces cs else c :: cs

/-- Consume at least one whitespace character, then a maximal run
(regex backslash-s plus). -/
def skipSpaces1 : List Char → Option (List Char)
  | [] => none
  | c :: cs => if isSpaceChar c then some (dropSpaces cs) else none

/-- Take the maximal run of word characters (regex backslash-w plus,
followed by a word boundary). -/
def takeWord : List Char → List Char × List Char
  | [] => ([], [])
  | c :: cs =>
      if isWordChar c then
        let p := takeWord cs
        (c :: p.1, p.2)
      else ([], c :: cs)

/-- A word boundary sits at the head of `cs`: end of input or a non-word character. -/
def boundaryHead : List Char → Bool
  | [] => true
  | c :: _ => !(isWordChar c)

/-- The reserved clause keywords of the rewriter, exactly the alternation in
`reservedRegex` of `applyFiltersToDatasetReferences`. -/
def reservedWords : List String :=
  ["WHERE", "GROUP", "ORDER", "LIMIT", "HAVING", "WINDOW", "UNION", "INTERSECT",
   "EXCEPT", "OFFSET", "FETCH", "JOIN", "LEFT", "RIGHT", "FULL", "INNER",
   "OUTER", "ON", "USING", "AND", "OR"]

/-- Case-insensitive membership of a word in the reserved list.  The negative
lookahead of the source regex blocks an alias exactly when the maximal word at
the alias position equals one of the reserved keywords up to case. -/
def isReserved (w : List Char) : Bool :=
  reservedWords.any fun r => r.data.map lowAscii = w.map lowAscii

/-- The derived-table replacement `(SELECT * FROM dataset WHERE P) AS a`
produced by `filteredDerived` in the source. -/
def filteredDerived (P a : List Char) : List Char :=
  "(SELECT * FROM dataset WHERE ".data ++ P ++ ") AS ".data ++ a

/-- Matcher for the pattern `FROM dataset AS (w+)` (case-insensitive, word
boundary before FROM).  Returns the replacement text and the rest of the input. -/
def matchFromAs (P : List Char) (prevW : Bool) (cs : List Char) :
    Option (List Char × List Char) :=
  if prevW then none else
  (matchCI "from".data cs).bind fun r1 =>
  (skipSpaces1 r1).bind fun r2 =>
  (matchCI "dataset".data r2).bind fun r3 =>
  (skipSpaces1 r3).bind fun r4 =>
  (matchCI "as".data r4).bind fun r5 =>
  (skipSpaces1 r5).bind fun r6 =>
  let p := takeWord r6
  if p.1 = [] then none
  else some ("FROM ".data ++ filteredDerived P p.1, p.2)

/-- Matcher for `FROM dataset (w+)` with the reserved-keyword negative
lookahead guarding the alias. -/
def matchFromAlias (P : List Char) (prevW : Bool) (cs : List Char) :
    Option (List Char × List Char) :=
  if prevW then none else
  (matchCI "from".data cs).bind fun r1 =>
  (skipSpaces1 r1).bind fun r2 =>
  (matchCI "dataset".data r2).bind fun r3 =>
  (skipSpaces1 r3).bind fun r4 =>
  let p := takeWord r4
  if p.1 = [] then none
  else if isReserved p.1 then none
  else some ("FROM ".data ++ filteredDerived P p.1, p.2)

/-- Matcher for bare `FROM dataset` followed by a word boundary. -/
def matchFromBare (P : List Char) (prevW : Bool) (cs : List Char) :
    Option (List Char × List Char) :=
  if prevW then none else
  (matchCI "from".data cs).bind fun r1 =>
  (skipSpaces1 r1).bind fun r2 =>
  (matchCI "dataset".data r2).bind fun r3 =>
  if boundaryHead r3 then
    some ("FROM ".data ++ filteredDerived P "dataset".data, r3)
  else none

/-- Matcher for `JOIN dataset AS (w+)`. -/
def matchJoinAs (P : List Char) (prevW : Bool) (cs : List Char) :
    Option (List Char × List Char) :=
  if prevW then none else
  (matchCI "join".data cs).bind fun r1 =>
  (skipSpaces1 r1).bind fun r2 =>
  (matchCI "dataset".data r2).bind fun r3 =>
  (skipSpaces1 r3).bind fun r4 =>
  (matchCI "as".data r4).bind fun r5 =>
  (skipSpaces1 r5).bind fun r6 =>
  let p := takeWord r6
  if p.1 = [] then none
  else some ("JOIN ".data ++ filteredDerived P p.1, p.2)

/-- Matcher for `JOIN dataset (w+)` with the reserved-keyword guard. -/
def matchJoinAlias (P : List Char) (prevW : Bool) (cs : List Char) :
    Option (List Char × List Char) :=
  if prevW then none else
  (matchCI "join".data cs).bind fun r1 =>
  (skipSpaces1 r1).bind fun r2 =>
  (matchCI "dataset".data r2).bind fun r3 =>
  (skipSpaces1 r3).bind fun r4 =>
  let p := takeWord r4
  if p.1 = [] then none
  else if isReserved p.1 then none
  else some ("JOIN ".data ++ filteredDerived P p.1, p.2)

/-- Matcher for bare `JOIN dataset` followed by a word boundary. -/
def matchJoinBare (P : List Char) (prevW : Bool) (cs : List Char) :
    Option (List Char × List Char) :=
  if prevW then none else
  (matchCI "join".data cs).bind fun r1 =>
  (skipSpaces1 r1).bind fun r2 =>
  (matchCI "dataset".data r2).bind fun r3 =>
  if boundaryHead r3 then
    some ("JOIN ".data ++ filteredDerived P "dataset".data, r3)
  else none

/-- Matcher for the comma-list pattern `, dataset AS (w+)` (no word boundary
is needed before a comma, so `prevW` is ignored). -/
def matchCommaAs (P : List Char) (_prevW : Bool) (cs : List Char) :
    Option (List Char × List Char) :=
  match cs with
  | ',' :: cs1 =>
    (matchCI "dataset".data (dropSpaces cs1)).bind fun r3 =>
    (skipSpaces1 r3).bind fun r4 =>
    (matchCI "as".data r4).bind fun r5 =>
    (skipSpaces1 r5).bind fun r6 =>
    let p := takeWord r6
    if p.1 = [] then none
    else some (", ".data ++ filteredDerived P p.1, p.2)
  | _ => none

/-- Matcher for `, dataset (w+)` with the reserved-keyword guard. -/
def matchCommaAlias (P : List Char) (_prevW : Bool) (cs : List Char) :
    Option (List Char × List Char) :=
  match cs with
  | ',' :: cs1 =>
    (matchCI "dataset".data (dropSpaces cs1)).bind fun r3 =>
    (skipSpaces1 r3).bind fun r4 =>
    let p := takeWord r4
    if p.1 = [] then none
    else if isReserved p.1 then none
    else some (", ".data ++ filteredDerived P p.1, p.2)
  | _ => none

/-- Matcher for bare `, dataset` followed by a word boundary. -/
def matchCommaBare (P : List Char) (_prevW : Bool) (cs : List Char) :
    Option (List Char × List Char) :=
  match cs with
  | ',' :: cs1 =>
    (matchCI "dataset".data (dropSpaces cs1)).bind fun r3 =>
    if boundaryHead r3 then
      some (", ".data ++ filteredDerived P "dataset".data, r3)
    else none
  | _ => none

/-- One global-replace pass: scan left to right, fire the matcher where it
matches and continue after the matched input (the replacement is not
rescanned), otherwise copy one character.  Every successful match of the nine
patterns ends in a word character (an alias word or `dataset`), so after a
match the word-boundary state is `true`.  The fuel equals the input length;
since every step consumes at least one input character it never runs out. -/
def jsReplaceFuel (m : Bool → List Char → Option (List Char × List Char)) :
    Nat → Bool → List Char → List Char
  | 0, _, cs => cs
  | _ + 1, _, [] => []
  | fuel + 1, prevW, c :: cs =>
      match m prevW (c :: cs) with
      | some (rep, rest) => rep ++ jsReplaceFuel m fuel true rest
      | none => c :: jsReplaceFuel m fuel (isWordChar c) cs

/-- A full global-replace pass over `cs`, starting at a word boundary. -/
def jsReplace (m : Bool → List Char → Option (List Char × List Char))
    (cs : List Char) : List Char :=
  jsReplaceFuel m cs.length false cs

/-- The test regex `backslash-b dataset backslash-b` with the `i` flag:
somewhere in the input the word `dataset` occurs delimited by word boundaries. -/
def containsDatasetWord : Bool → List Char → Bool
  | _, [] => false
  | prevW, c :: cs =>
      (decide ((!prevW) = true ∧
        (match matchCI "dataset".data (c :: cs) with
         | some rest => boundaryHead rest
         | none => false) = true))
      || containsDatasetWord (isWordChar c) cs

/-- JavaScript `String.prototype.trim` restricted to ASCII whitespace. -/
def trimChars (cs : List Char) : List Char :=
  ((cs.dropWhile isSpaceChar).reverse.dropWhile isSpaceChar).reverse

/-- The nine replacement passes of `applyFiltersToDatasetReferences`, in
source order: FROM (AS-aliased, aliased, bare), JOIN (AS-aliased, aliased,
bare), comma list (AS-aliased, aliased, bare). -/
def rewritePasses (P : List Char) (cs : List Char) : List Char :=
  let r1 := jsReplace (matchFromAs P) cs
  let r2 := jsReplace (matchFromAlias P) r1
  let r3 := jsReplace (matchFromBare P) r2
  let r4 := jsReplace (matchJoinAs P) r3
  let r5 := jsReplace (matchJoinAlias P) r4
  let r6 := jsReplace (matchJoinBare P) r5
  let r7 := jsReplace (matchCommaAs P) r6
  let r8 := jsReplace (matchCommaAlias P) r7
  jsReplace (matchCommaBare P) r8

/-- The Reference Rewriter `applyFiltersToDatasetReferences` of Dashboard.tsx:
trim the query, return it unchanged when the predicate is empty or the word
`dataset` does not occur, otherwise run the nine replacement passes. -/
def applyFiltersToDatasetReferences (originalQuery whereClause : String) : String :=
  let query := trimChars originalQuery.data
  if whereClause = "" then String.mk query
  else if !containsDatasetWord false query then String.mk query
  else String.mk (rewritePasses whereClause.data query)

/-! ## JavaScript numbers: `parseFloat` and template-literal rendering -/

/-- Result of `parseFloat`: a finite value (modelled exactly as a rational),
an infinity, or `NaN` when no numeric prefix exists. -/
inductive JsNum where
  | fin (q : ℚ)
  | inf (neg : Bool)
  | nan
deriving DecidableEq

/-- Decimal digits of a character list prefix. -/
def spanDigits (cs : List Char) : List Char × List Char :=
  (cs.takeWhile Char.isDigit, cs.dropWhile Char.isDigit)

/-- Numeric value of a digit string. -/
def digitsVal (ds : List Char) : Nat :=
  ds.foldl (fun a c => a * 10 + (c.toNat - 48)) 0

/-- Exponent part of a JavaScript float literal: `e`/`E`, optional sign and
digits; consumed only when at least one digit follows. -/
def parseExp (cs : List Char) : Int :=
  match cs with
  | c :: r =>
      if c = 'e' ∨ c = 'E' then
        let (neg, r1) : Bool × List Char :=
          match r with
          | '-' :: r2 => (true, r2)
          | '+' :: r2 => (false, r2)
          | r2 => (false, r2)
        let (ds, _) := spanDigits r1
        if ds = [] then 0
        else if neg then -(digitsVal ds : Int) else (digitsVal ds : Int)
      else 0
  | [] => 0

/-- JavaScript `parseFloat`: skip leading whitespace, optional sign, then the
longest prefix that is `Infinity` or a decimal literal with optional fraction
and exponent; `NaN` when no such prefix exists.  Finite values are kept as
exact rationals (float rounding and overflow to infinity are not modelled). -/
def parseFloatChars (cs0 : List Char) : JsNum :=
  let cs1 := cs0.dropWhile isSpaceChar
  let (neg, cs) : Bool × List Char :=
    match cs1 with
    | '-' :: r => (true, r)
    | '+' :: r => (false, r)
    | r => (false, r)
  if "Infinity".data.isPrefixOf cs then JsNum.inf neg
  else
    let (d1, r1) := spanDigits cs
    let (d2, r2) : List Char × List Char :=
      match r1 with
      | '.' :: r => spanDigits r
      | r => ([], r)
    if d1 = [] ∧ d2 = [] then JsNum.nan
    else
      let mant : ℚ := (digitsVal d1 : ℚ) + (digitsVal d2 : ℚ) / (10 : ℚ) ^ d2.length
      let e := parseExp r2
      JsNum.fin ((if neg then -mant else mant) * (10 : ℚ) ^ e)

/-- String version of `parseFloatChars`. -/
def parseFloat (s : String) : JsNum := parseFloatChars s.data

/-- Decimal rendering of a non-negative rational whose denominator divides a
power of ten, the way JavaScript prints such numbers in template literals. -/
def renderNonnegRat (q : ℚ) : String :=
  match (List.range 31).find? (fun k => (q * (10 : ℚ) ^ k).den = 1) with
  | some k =>
      if k = 0 then toString q.num.toNat
      else
        let s := toString (q * (10 : ℚ) ^ k).num.toNat
        let s := String.mk (List.replicate (k + 1 - s.length) '0') ++ s
        s.dropRight k ++ "." ++ s.takeRight k
  | none => toString q.num.toNat ++ "/" ++ toString q.den

/-- Template-literal rendering of a JavaScript number. -/
def renderJsNum : JsNum → String
  | .nan => "NaN"
  | .inf true => "-Infinity"
  | .inf false => "Infinity"
  | .fin q => if q < 0 then "-" ++ renderNonnegRat (-q) else renderNonnegRat q

/-! ## Filter Clause Builder (`buildWhereClause`) -/

/-- A filter declaration of the dashboard configuration catalog. -/
structure FilterDecl where
  id : String
  column : String
  type : String
deriving DecidableEq

/-- A filter-state value: null or undefined, a scalar string, an array of
strings, or an object with the optional bound fields used by the range
filters (`stop` models the `end` property of a date range). -/
inductive FVal where
  | fnull
  | fstr (s : String)
  | farr (ss : List String)
  | fobj (min max start stop : Option String)
deriving DecidableEq

/-- JavaScript truthiness of an optional string property. -/
def optTruthy : Option String → Bool
  | none => false
  | some s => s ≠ ""

/-- Escape a string for a SQL literal by doubling embedded single quotes,
as in the source `String(v).replace` with a global quote regex. -/
def escapeQuotes (s : String) : String :=
  String.mk (s.data.flatMap fun c => if c = sqc then [sqc, sqc] else [c])

/-- The condition a single numeric-range bound contributes: present exactly
when the bound exists, is non-empty, and `parseFloat` does not give `NaN`. -/
def numericBoundCond (column op : String) : Option String → List String
  | none => []
  | some s =>
      if s = "" then []
      else
        let n := parseFloat s
        if n = JsNum.nan then []
        else [column ++ op ++ renderJsNum n]

/-- The conditions one filter contributes to the WHERE clause, following the
`switch` in `buildWhereClause` (the null and undefined guard having already
been applied by the caller). -/
def conditionsFor (ftype column : String) (v : FVal) : List String :=
  if ftype = "categorical" ∨ ftype = "multi_select" then
    match v with
    | .farr ss =>
        if ss.length > 0 then
          [column ++ " IN (" ++
            String.intercalate ", " (ss.map fun s => quoted (escapeQuotes s)) ++ ")"]
        else []
    | .fstr s => if s ≠ "" then [column ++ " = " ++ quoted (escapeQuotes s)] else []
    | _ => []
  else if ftype = "numeric_range" then
    match v with
    | .fobj mn mx _ _ => numericBoundCond column " >= " mn ++ numericBoundCond column " <= " mx
    | _ => []
  else if ftype = "date_range" then
    match v with
    | .fobj _ _ (some s) (some e) =>
        if s ≠ "" ∧ e ≠ "" then
          [column ++ " BETWEEN " ++ quoted s ++ " AND " ++ quoted e]
        else []
    | _ => []
  else []

/-- The Filter Clause Builder `buildWhereClause` of Dashboard.tsx: iterate the
filter state in insertion order, look up each declaration, skip unknown ids
and null values, and join the conditions with AND. -/
def buildWhereClause (decls : List FilterDecl) (state : List (String × FVal)) : String :=
  let conditions := state.flatMap fun p =>
    match decls.find? (fun f => f.id = p.1) with
    | none => []
    | some f => if p.2 = FVal.fnull then [] else conditionsFor f.type f.column p.2
  String.intercalate " AND " conditions

/-! ## Declarative Query Builder -/

/-- Lower-case an ASCII string, as `toLowerCase` on the identifiers used here. -/
def toLowerStr (s : String) : String := String.mk (s.data.map lowAscii)

/-- Upper-case an ASCII character. -/
def upAscii (c : Char) : Char :=
  if 'a' ≤ c ∧ c ≤ 'z' then Char.ofNat (c.toNat - 32) else c

/-- Upper-case an ASCII string, as `toUpperCase` on the identifiers used here. -/
def toUpperStr (s : String) : String := String.mk (s.data.map upAscii)

/-- JavaScript `String.prototype.includes`. -/
def strContains (s sub : String) : Bool :=
  s.data.tails.any fun t => sub.data.isPrefixOf t

/-- A KPI metric specification. -/
structure KpiSpec where
  id : String
  name : String
  value_column : String
  calculation : String
  format_type : String
  sql_query : Option String
deriving DecidableEq

/-- The KPI branch of the Declarative Query Builder (Dashboard.tsx `loadData`,
backward-compatibility path used when the specification has no raw SQL). -/
def buildKpiQuery (kpi : KpiSpec) : String :=
  let calcLc := toLowerStr kpi.calculation
  if kpi.value_column = "*" ∨ calcLc = "count" then
    if kpi.value_column = "*" then "SELECT COUNT(*) as value FROM dataset"
    else "SELECT COUNT(" ++ kpi.value_column ++ ") as value FROM dataset"
  else if kpi.format_type = "percentage" ∧ strContains (toLowerStr kpi.name) "rate" then
    if strContains (toLowerStr kpi.name) "cancel" then
      "SELECT (COUNT(CASE WHEN " ++ kpi.value_column ++ " = " ++ quoted "Cancelled" ++
        " THEN 1 END) * 100.0 / COUNT(*)) as value FROM dataset"
    else if strContains (toLowerStr kpi.name) "conversion" then
      "SELECT (COUNT(CASE WHEN " ++ kpi.value_column ++ " = " ++ quoted "Completed" ++
        " THEN 1 END) * 100.0 / COUNT(*)) as value FROM dataset"
    else
      "SELECT (COUNT(" ++ kpi.value_column ++ ") * 100.0 / COUNT(*)) as value FROM dataset"
  else if calcLc = "sum" then "SELECT SUM(" ++ kpi.value_column ++ ") as value FROM dataset"
  else if calcLc = "avg" ∨ calcLc = "average" ∨ calcLc = "mean" then
    "SELECT AVG(" ++ kpi.value_column ++ ") as value FROM dataset"
  else if calcLc = "max" then "SELECT MAX(" ++ kpi.value_column ++ ") as value FROM dataset"
  else if calcLc = "min" then "SELECT MIN(" ++ kpi.value_column ++ ") as value FROM dataset"
  else "SELECT COUNT(" ++ kpi.value_column ++ ") as value FROM dataset"

/-- A chart specification.  Optional string fields model properties that may
be absent; the empty string is falsy, as in the source truthiness tests. -/
structure ChartSpec where
  id : String
  type : String
  x_axis : Option String
  y_axis : Option String
  aggregation : Option String
  sort_by : Option String
  sort_order : String
  limit : Option Nat
  sql_query : Option String
deriving DecidableEq

/-- The aggregation allow-list of the chart branch. -/
def validAggregations : List String := ["sum", "avg", "count", "min", "max"]

/-- The chart branch of the Declarative Query Builder (Dashboard.tsx
`loadData`), including the in-place WHERE injection it performs. -/
def buildChartQuery (chart : ChartSpec) (wc : String) : String :=
  if optTruthy chart.x_axis ∧ optTruthy chart.y_axis then
    let x := chart.x_axis.getD ""
    let y := chart.y_axis.getD ""
    let q := "SELECT " ++ x
    let q :=
      if optTruthy chart.aggregation ∧ chart.aggregation.getD "" ≠ "none" then
        let a := chart.aggregation.getD ""
        let agg := if validAggregations.contains (toLowerStr a) then toUpperStr a else "COUNT"
        let valueAlias := if chart.type = "pie" then "count" else "value"
        let q := q ++ ", " ++ agg ++ "(" ++ y ++ ") as " ++ valueAlias ++ " FROM dataset"
        let q := if wc ≠ "" then q ++ " WHERE " ++ wc else q
        q ++ " GROUP BY " ++ x
      else
        let q := q ++ ", " ++ y ++ " FROM dataset"
        if wc ≠ "" then q ++ " WHERE " ++ wc else q
    let q :=
      if optTruthy chart.sort_by then
        q ++ " ORDER BY " ++ chart.sort_by.getD "" ++ " " ++ toUpperStr chart.sort_order
      else q
    match chart.limit with
    | some n => if n > 0 then q ++ " LIMIT " ++ toString n else q
    | none => q
  else "SELECT * FROM dataset LIMIT 100"

/-! ## Execution Orchestrator with fallback -/

/-- A failure message indicates a structural SQL problem when it contains one
of the four substrings tested in the source. -/
def isStructuralError (msg : String) : Bool :=
  strContains msg "syntax error" || strContains msg "Binder Error" ||
  strContains msg "GROUP BY" || strContains msg "not found in FROM clause"

/-- The primary query issued for a KPI: the raw LLM SQL rewritten by the
Reference Rewriter when a predicate is active, or the built query with the
predicate appended. -/
def primaryKpiQuery (kpi : KpiSpec) (wc : String) : String :=
  match kpi.sql_query with
  | some sql => if wc ≠ "" then applyFiltersToDatasetReferences sql wc else sql
  | none =>
      let q := buildKpiQuery kpi
      if wc ≠ "" then q ++ " WHERE " ++ wc else q

/-- The aggregate-dependent base of the KPI fallback query. -/
def kpiFallbackBase (kpi : KpiSpec) : String :=
  if toLowerStr kpi.calculation = "sum" then
    "SELECT COALESCE(SUM(" ++ kpi.value_column ++ "), 0) as value FROM dataset"
  else if toLowerStr kpi.calculation = "avg" then
    "SELECT COALESCE(AVG(" ++ kpi.value_column ++ "), 0) as value FROM dataset"
  else if toLowerStr kpi.calculation = "count" then "SELECT COUNT(*) as value FROM dataset"
  else if toLowerStr kpi.calculation = "percentage" then "SELECT COUNT(*) as value FROM dataset"
  else "SELECT COUNT(*) as value FROM dataset"

/-- The fallback query synthesized for a failed KPI LLM query. -/
def kpiFallbackQuery (kpi : KpiSpec) (wc : String) : String :=
  if wc ≠ "" then kpiFallbackBase kpi ++ " WHERE " ++ wc else kpiFallbackBase kpi

/-- Replace the first occurrence of `patt` in `cs` by `rep`, the semantics of
JavaScript `String.prototype.replace` with a string pattern. -/
def replaceFirst (patt rep : List Char) : List Char → List Char
  | [] => []
  | c :: cs =>
      if patt.isPrefixOf (c :: cs) then rep ++ (c :: cs).drop patt.length
      else c :: replaceFirst patt rep cs

/-- The primary query issued for a chart. -/
def primaryChartQuery (chart : ChartSpec) (wc : String) : String :=
  match chart.sql_query with
  | some sql => if wc ≠ "" then applyFiltersToDatasetReferences sql wc else sql
  | none => buildChartQuery chart wc

/-- The axis-dependent base of the chart fallback query. -/
def chartFallbackBase (chart : ChartSpec) : String :=
  if optTruthy chart.x_axis ∧ optTruthy chart.y_axis then
    "SELECT " ++ chart.x_axis.getD "" ++ ", COUNT(*) as count FROM dataset WHERE " ++
      chart.x_axis.getD "" ++ " IS NOT NULL GROUP BY " ++ chart.x_axis.getD "" ++
      " ORDER BY count DESC LIMIT 10"
  else
    "SELECT " ++ quoted "No Data" ++ " as category, 0 as count FROM dataset LIMIT 1"

/-- The fallback query synthesized for a failed chart LLM query; the filter
predicate is spliced into the WHERE clause only when an x-axis is configured. -/
def chartFallbackQuery (chart : ChartSpec) (wc : String) : String :=
  if wc ≠ "" ∧ optTruthy chart.x_axis then
    String.mk (replaceFirst "WHERE ".data ("WHERE " ++ wc ++ " AND ").data
      (chartFallbackBase chart).data)
  else chartFallbackBase chart

/-- One KPI load against an execution backend `exec`: returns the list of
queries issued, in order, and the error reported to the caller, if any.
Mirrors the promise chain of `loadData` for a single KPI. -/
def runKpiLoad (exec : String → Except String Unit) (kpi : KpiSpec) (wc : String) :
    List String × Option String :=
  match exec (primaryKpiQuery kpi wc) with
  | .ok _ => ([primaryKpiQuery kpi wc], none)
  | .error msg =>
      if kpi.sql_query.isSome ∧ isStructuralError msg then
        match exec (kpiFallbackQuery kpi wc) with
        | .ok _ => ([primaryKpiQuery kpi wc, kpiFallbackQuery kpi wc], none)
        | .error m2 =>
            ([primaryKpiQuery kpi wc, kpiFallbackQuery kpi wc],
              some ("LLM query failed: " ++ msg ++ ". Fallback failed: " ++ m2))
      else ([primaryKpiQuery kpi wc], some msg)

/-- One chart load against an execution backend `exec`, as `runKpiLoad`. -/
def runChartLoad (exec : String → Except String Unit) (chart : ChartSpec) (wc : String) :
    List String × Option String :=
  match exec (primaryChartQuery chart wc) with
  | .ok _ => ([primaryChartQuery chart wc], none)
  | .error msg =>
      if chart.sql_query.isSome ∧ isStructuralError msg then
        match exec (chartFallbackQuery chart wc) with
        | .ok _ => ([primaryChartQuery chart wc, chartFallbackQuery chart wc], none)
        | .error m2 =>
            ([primaryChartQuery chart wc, chartFallbackQuery chart wc],
              some ("LLM query failed: " ++ msg ++ ". Fallback failed: " ++ m2))
      else ([primaryChartQuery chart wc], some msg)

/-! ## Result Normalizer (`validateChartData` of BaseChart.tsx) -/

/-- A JavaScript value as manipulated by the chart-data validator: rows are
objects whose properties hold scalars (or, in principle, nested values). -/
inductive JsVal where
  | vnull
  | vundefined
  | vbool (b : Bool)
  | vnum (n : JsNum)
  | vstr (s : String)
  | varr (xs : List JsVal)
  | vobj (fs : List (String × JsVal))

namespace JsVal

mutual

/-- Structural equality on JavaScript values; `NaN` equals `NaN`, matching the
SameValueZero comparison used by `Set`. -/
def beqVal : JsVal → JsVal → Bool
  | .vnull, .vnull => true
  | .vundefined, .vundefined => true
  | .vbool a, .vbool b => a == b
  | .vnum a, .vnum b => a == b
  | .vstr a, .vstr b => a == b
  | .varr xs, .varr ys => beqList xs ys
  | .vobj fs, .vobj gs => beqFields fs gs
  | _, _ => false

/-- Elementwise equality of value lists. -/
def beqList : List JsVal → List JsVal → Bool
  | [], [] => true
  | x :: xs, y :: ys => beqVal x y && beqList xs ys
  | _, _ => false

/-- Elementwise equality of property lists. -/
def beqFields : List (String × JsVal) → List (String × JsVal) → Bool
  | [], [] => true
  | (k, v) :: fs, (l, w) :: gs => k == l && beqVal v w && beqFields fs gs
  | _, _ => false

end

instance : BEq JsVal := ⟨beqVal⟩

end JsVal

/-- Property access `v[k]`: a missing property, or access on a non-object,
reads as `undefined` (the guarded uses in the source never hit the throwing
null and undefined cases). -/
def getField (v : JsVal) (k : String) : JsVal :=
  match v with
  | .vobj fs =>
      match fs.find? (fun p => p.1 = k) with
      | some p => p.2
      | none => .vundefined
  | _ => .vundefined

/-- JavaScript truthiness of a value. -/
def truthy : JsVal → Bool
  | .vnull => false
  | .vundefined => false
  | .vbool b => b
  | .vnum n =>
      match n with
      | .fin q => q ≠ 0
      | .inf _ => true
      | .nan => false
  | .vstr s => s ≠ ""
  | .varr _ => true
  | .vobj _ => true

/-- `Array.isArray` plus extraction of the elements. -/
def asArr : JsVal → Option (List JsVal)
  | .varr xs => some xs
  | _ => none

/-- A value is null or undefined. -/
def isNullish : JsVal → Bool
  | .vnull => true
  | .vundefined => true
  | _ => false

/-- JavaScript `String(v)` conversion.  Array elements that are null or
undefined render as the empty string inside the comma join. -/
def jsToString : JsVal → String
  | .vnull => "null"
  | .vundefined => "undefined"
  | .vbool true => "true"
  | .vbool false => "false"
  | .vnum n => renderJsNum n
  | .vstr s => s
  | .varr xs =>
      String.intercalate "," (xs.attach.map fun x =>
        if isNullish x.1 then "" else jsToString x.1)
  | .vobj _ => "[object Object]"
decreasing_by
  simp_wf
  have := List.sizeOf_lt_of_mem x.2
  omega

/-- The extraction chain of `validateChartData`: the raw response itself as an
array, then `.data`, `.results.data`, `.result.data`, `.results`, in order. -/
def extractRawData (data : JsVal) : Option (List JsVal) :=
  if (asArr data).isSome then asArr data
  else if truthy data ∧ (asArr (getField data "data")).isSome then
    asArr (getField data "data")
  else if truthy data ∧ truthy (getField data "results") ∧
      (asArr (getField (getField data "results") "data")).isSome then
    asArr (getField (getField data "results") "data")
  else if truthy data ∧ truthy (getField data "result") ∧
      (asArr (getField (getField data "result") "data")).isSome then
    asArr (getField (getField data "result") "data")
  else if truthy data ∧ (asArr (getField data "results")).isSome then
    asArr (getField data "results")
  else none

/-- The row filter of `cleanChartData`: the x value, and the y value when a
y-axis is configured, must be neither null nor undefined nor blank after
string conversion and trimming. -/
def rowKeep (cfg : ChartSpec) (row : JsVal) : Bool :=
  let xv := getField row (cfg.x_axis.getD "")
  let isXValid := !(isNullish xv) && String.mk (trimChars (jsToString xv).data) ≠ ""
  let isYValid :=
    !(optTruthy cfg.y_axis) ||
      (let yv := getField row (cfg.y_axis.getD "")
       !(isNullish yv) && String.mk (trimChars (jsToString yv).data) ≠ "")
  isXValid && isYValid

/-- Set a property of an object property list, updating the first binding or
appending a new one. -/
def setField : List (String × JsVal) → String → JsVal → List (String × JsVal)
  | [], k, v => [(k, v)]
  | (k1, v1) :: fs, k, v =>
      if k1 = k then (k, v) :: fs else (k1, v1) :: setField fs k v

/-- If property `k` of the row holds a string that `parseFloat` accepts,
replace it by the parsed number. -/
def coerceField (k : String) (fs : List (String × JsVal)) : List (String × JsVal) :=
  match getField (.vobj fs) k with
  | .vstr s =>
      let n := parseFloatChars s.data
      if n ≠ JsNum.nan then setField fs k (.vnum n) else fs
  | _ => fs

/-- The per-row numeric coercion of `cleanChartData`: y-axis then x-axis
values that are numeric-looking strings become numbers.  Rows that are not
objects are returned unchanged (spreading a primitive is not modelled). -/
def coerceRow (cfg : ChartSpec) (row : JsVal) : JsVal :=
  match row with
  | .vobj fs =>
      let fs1 := if optTruthy cfg.y_axis then coerceField (cfg.y_axis.getD "") fs else fs
      let fs2 := if optTruthy cfg.x_axis then coerceField (cfg.x_axis.getD "") fs1 else fs1
      .vobj fs2
  | r => r

/-- `cleanChartData` of BaseChart.tsx: all rows when no x-axis is configured,
otherwise the kept rows with numeric coercion applied. -/
def cleanChartData (data : List JsVal) (cfg : ChartSpec) : List JsVal :=
  if !(optTruthy cfg.x_axis) then data
  else (data.filter (rowKeep cfg)).map (coerceRow cfg)

/-- Count of distinct values under SameValueZero, the size of the `Set` built
in the pie-chart advisory check. -/
def distinctCount (xs : List JsVal) : Nat :=
  (xs.foldl (fun acc x => if acc.contains x then acc else x :: acc) []).length

/-- The advisory warning of `validateChartSpecificLenient`. -/
def lenientWarning (data : List JsVal) (cfg : ChartSpec) : Option String :=
  let w :=
    if data.length = 0 then "No data available to display"
    else if data.length = 1 then "Only one data point available - chart may be limited"
    else ""
  let w :=
    if cfg.type = "pie" then
      if !(optTruthy cfg.x_axis) then
        "Pie chart may not display correctly without X-axis configuration"
      else if distinctCount (data.map fun r => getField r (cfg.x_axis.getD "")) > 20 then
        "Many categories detected - chart may be crowded"
      else w
    else if cfg.type = "scatter" then
      if !(optTruthy cfg.x_axis) || !(optTruthy cfg.y_axis) then
        "Scatter plot may not display correctly without both X and Y axes"
      else w
    else if cfg.type = "line" then
      if data.length > 100 then "Large dataset detected - chart may be crowded" else w
    else w
  if w = "" then none else some w

/-- The validation outcome record of BaseChart.tsx. -/
structure DataValidationResult where
  isValid : Bool
  processedData : Option (List JsVal)
  warning : Option String
  error : Option String

/-- The processed rows of `validateChartData`: when an axis is configured the
cleaned rows are used, unless cleaning removed every row, in which case the
raw rows are kept. -/
def processedRows (rawData : List JsVal) (cfg : ChartSpec) : List JsVal :=
  if optTruthy cfg.x_axis ∨ optTruthy cfg.y_axis then
    if (cleanChartData rawData cfg).length > 0 then cleanChartData rawData cfg else rawData
  else rawData

/-- `validateChartData` of BaseChart.tsx: extract the row array (failing hard
when none of the recognized paths yields one), accept empty data with a
warning, otherwise use the processed rows and attach the advisory warning. -/
def validateChartData (data : JsVal) (cfg : ChartSpec) : DataValidationResult :=
  match extractRawData data with
  | none => ⟨false, none, none, some "Could not find data array in response"⟩
  | some rawData =>
      if rawData.length = 0 then
        ⟨true, some [], some "No data available to display", none⟩
      else
        ⟨true, some (processedRows rawData cfg),
          lenientWarning (processedRows rawData cfg) cfg, none⟩

/-! ## Sample specifications used by witnesses and counterexamples -/

/-- A bar chart over the `x` column, no y-axis. -/
def cfgBarX : ChartSpec := ⟨"c9", "bar", some "x", none, none, none, "asc", none, none⟩

/-- A row whose configured x value is null. -/
def rowNullX : JsVal := JsVal.vobj [("x", JsVal.vnull)]

/-- The C6 scenario chart specification. -/
def chartC6 : ChartSpec := ⟨"c6", "bar", some "month", some "revenue", some "sum", none, "asc", none, none⟩

/-- The C6 scenario filter catalog. -/
def declsC6 : List FilterDecl := [⟨"region", "region", "categorical"⟩]

/-- A KPI carrying a raw LLM query. -/
def kpiRaw : KpiSpec := ⟨"k1", "Total", "amount", "sum", "number", some "SELECT bogus FROM dataset"⟩

/-- A KPI with an unrecognized calculation and no raw SQL. -/
def kpiBogus : KpiSpec := ⟨"k7", "Widget Tally", "col", "bogus", "number", none⟩

/-- A chart carrying a raw LLM query. -/
def chartRaw : ChartSpec := ⟨"c5", "bar", some "region", some "amount", none, none, "asc", none, some "SELECT bogus FROM dataset"⟩

/-- An execution backend that rejects the raw query with a binder error and
accepts everything else. -/
def execBinder : String → Except String Unit := fun q =>
  if q = "SELECT bogus FROM dataset" then Except.error "Binder Error: bogus" else Except.ok ()

/-- An execution backend that always fails with a non-structural message. -/
def execPermDenied : String → Except String Unit := fun _ => Except.error "permission denied"

/-! ## Helper lemmas about the scanning primitives -/

/-- A word character is never a whitespace character. -/
theorem word_not_space (c : Char) (h : isWordChar c = true) : isSpaceChar c = false := by
  by_contra h2
  rw [Bool.not_eq_false] at h2
  simp only [isSpaceChar, Bool.or_eq_true, decide_eq_true_eq] at h2
  rcases h2 with ((((h2 | h2) | h2) | h2) | h2) | h2 <;> subst h2 <;> simp [isWordChar] at h

/-- Dropping spaces is the identity on a list starting with a word. -/
theorem dropSpaces_app_word (w rest : List Char) (hw : w ≠ [])
    (h : ∀ c ∈ w, isWordChar c = true) : dropSpaces (w ++ rest) = w ++ rest := by
  cases w with
  | nil => exact absurd rfl hw
  | cons c w1 =>
      have hc := word_not_space c (h c (List.mem_cons_self c w1))
      simp [dropSpaces, hc]

/-- The maximal word at the start of `w ++ rest` is exactly `w` when `w`
consists of word characters and `rest` starts at a word boundary. -/
theorem takeWord_app (w rest : List Char) (h : ∀ c ∈ w, isWordChar c = true)
    (hb : boundaryHead rest = true) : takeWord (w ++ rest) = (w, rest) := by
  induction w with
  | nil =>
      cases rest with
      | nil => rfl
      | cons c cs =>
          simp only [boundaryHead, Bool.not_eq_true'] at hb
          simp [takeWord, hb]
  | cons c w1 ih =>
      have hc := h c (List.mem_cons_self c w1)
      simp [takeWord, hc, ih fun d hd => h d (List.mem_cons_of_mem c hd)]

/-- The aliased FROM matcher rejects a reserved keyword in alias position. -/
theorem matchFromAlias_reserved_none (P w rest : List Char) (hw : w ≠ [])
    (hword : ∀ c ∈ w, isWordChar c = true) (hr : isReserved w = true)
    (hb : boundaryHead rest = true) :
    matchFromAlias P false ("FROM dataset ".data ++ w ++ rest) = none := by
  have hd := dropSpaces_app_word w rest hw hword
  have ht := takeWord_app w rest hword hb
  have step : matchFromAlias P false ("FROM dataset ".data ++ w ++ rest) =
      (let p := takeWord (dropSpaces (w ++ rest))
       if p.1 = [] then none
       else if isReserved p.1 then none
       else some ("FROM ".data ++ filteredDerived P p.1, p.2)) := rfl
  rw [step, hd, ht]
  simp [hw, hr]

/-- The aliased JOIN matcher rejects a reserved keyword in alias position. -/
theorem matchJoinAlias_reserved_none (P w rest : List Char) (hw : w ≠ [])
    (hword : ∀ c ∈ w, isWordChar c = true) (hr : isReserved w = true)
    (hb : boundaryHead rest = true) :
    matchJoinAlias P false ("JOIN dataset ".data ++ w ++ rest) = none := by
  have hd := dropSpaces_app_word w rest hw hword
  have ht := takeWord_app w rest hword hb
  have step : matchJoinAlias P false ("JOIN dataset ".data ++ w ++ rest) =
      (let p := takeWord (dropSpaces (w ++ rest))
       if p.1 = [] then none
       else if isReserved p.1 then none
       else some ("JOIN ".data ++ filteredDerived P p.1, p.2)) := rfl
  rw [step, hd, ht]
  simp [hw, hr]

/-- The aliased comma-list matcher rejects a reserved keyword in alias position. -/
theorem matchCommaAlias_reserved_none (P w rest : List Char) (hw : w ≠ [])
    (hword : ∀ c ∈ w, isWordChar c = true) (hr : isReserved w = true)
    (hb : boundaryHead rest = true) :
    matchCommaAlias P false (", dataset ".data ++ w ++ rest) = none := by
  have hd := dropSpaces_app_word w rest hw hword
  have ht := takeWord_app w rest hword hb
  have step : matchCommaAlias P false (", dataset ".data ++ w ++ rest) =
      (let p := takeWord (dropSpaces (w ++ rest))
       if p.1 = [] then none
       else if isReserved p.1 then none
       else some (", ".data ++ filteredDerived P p.1, p.2)) := rfl
  rw [step, hd, ht]
  simp [hw, hr]

/-! ## Claim theorems -/

/-- C1: for every reserved clause keyword following `dataset` at a word
boundary, the alias-consuming matchers of the Reference Rewriter do not fire,
so the keyword is never consumed as an alias; and the scenario query
`SELECT a, b FROM dataset WHERE a > 5 LIMIT 10` with a non-empty predicate is
rewritten by replacing only the FROM clause with the filtered derived table,
keeping the original WHERE attached to the derived relation and preserving
LIMIT 10 unchanged. -/
theorem c1_reserved_guard_and_scenario :
    (∀ kw ∈ reservedWords, ∀ P rest : List Char, boundaryHead rest = true →
      matchFromAlias P false ("FROM dataset ".data ++ kw.data ++ rest) = none ∧
      matchJoinAlias P false ("JOIN dataset ".data ++ kw.data ++ rest) = none ∧
      matchCommaAlias P false (", dataset ".data ++ kw.data ++ rest) = none) ∧
    applyFiltersToDatasetReferences "SELECT a, b FROM dataset WHERE a > 5 LIMIT 10"
        ("c = " ++ quoted "X") =
      "SELECT a, b FROM (SELECT * FROM dataset WHERE c = " ++ quoted "X" ++
        ") AS dataset WHERE a > 5 LIMIT 10" := by
  constructor
  · intro kw hkw P rest hb
    fin_cases hkw <;>
      exact ⟨matchFromAlias_reserved_none P _ rest (by decide) (by decide) (by decide) hb,
             matchJoinAlias_reserved_none P _ rest (by decide) (by decide) (by decide) hb,
             matchCommaAlias_reserved_none P _ rest (by decide) (by decide) (by decide) hb⟩
  · decide

/-- Witness for C1 at the keyword `WHERE`, a concrete predicate and a
concrete tail. -/
theorem c1_witness :
    ("WHERE" ∈ reservedWords ∧ boundaryHead " x".data = true) ∧
    matchFromAlias "p = 1".data false
      ("FROM dataset ".data ++ "WHERE".data ++ " x".data) = none :=
  ⟨⟨by decide, by decide⟩,
    (c1_reserved_guard_and_scenario.1 "WHERE" (by decide) "p = 1".data " x".data
      (by decide)).1⟩

/-- C2 counterexample: rewriting `SELECT a FROM dataset AS t` does not wrap
the reference exactly once; the inner `FROM dataset` of the derived table
inserted by the aliased FROM pattern is re-matched by the later bare FROM
pattern, so the reference is double-wrapped. -/
theorem c2_counterexample :
    applyFiltersToDatasetReferences "SELECT a FROM dataset AS t" ("c = " ++ quoted "X") ≠
      "SELECT a FROM (SELECT * FROM dataset WHERE c = " ++ quoted "X" ++ ") AS t" ∧
    applyFiltersToDatasetReferences "SELECT a FROM dataset AS t" ("c = " ++ quoted "X") =
      "SELECT a FROM (SELECT * FROM (SELECT * FROM dataset WHERE c = " ++ quoted "X" ++
        ") AS dataset WHERE c = " ++ quoted "X" ++ ") AS t" := by
  constructor
  · decide
  · decide

set_option maxRecDepth 8192 in
/-- C2 amended: within a single pass a replacement is emitted verbatim and
scanning resumes after the matched input, so no pass rescans its own
insertions; and for every predicate and continuation the reserved-word guard
keeps both aliased FROM patterns from matching at the inner
`FROM dataset WHERE` of an inserted derived table.  Nevertheless later,
looser patterns do re-match text inserted by earlier passes: the bare FROM
pass double-wraps a reference matched by the aliased FROM pattern, and a
predicate that itself mentions the base table makes the JOIN passes re-match
the predicate text inserted by the FROM pass, triple-wrapping a bare
reference — so no exactly-once-wrapping guarantee holds. -/
theorem c2_amended_ordering :
    (∀ (m : Bool → List Char → Option (List Char × List Char)) (fuel : Nat) (prevW : Bool)
        (c : Char) (cs rep rest : List Char), m prevW (c :: cs) = some (rep, rest) →
      jsReplaceFuel m (fuel + 1) prevW (c :: cs) = rep ++ jsReplaceFuel m fuel true rest) ∧
    (∀ Q rest : List Char,
      matchFromAlias Q false ("FROM dataset WHERE ".data ++ rest) = none ∧
      matchFromAs Q false ("FROM dataset WHERE ".data ++ rest) = none) ∧
    applyFiltersToDatasetReferences "SELECT a FROM dataset AS t" "p = 1" =
      "SELECT a FROM (SELECT * FROM (SELECT * FROM dataset WHERE p = 1) AS dataset WHERE p = 1) AS t" ∧
    applyFiltersToDatasetReferences "SELECT a FROM dataset" "x JOIN dataset y" =
      "SELECT a FROM (SELECT * FROM dataset WHERE x JOIN (SELECT * FROM dataset WHERE x JOIN (SELECT * FROM dataset WHERE x JOIN dataset y) AS dataset y) AS y) AS dataset" := by
  refine ⟨?_, ?_, by decide, by decide⟩
  · intro m fuel prevW c cs rep rest h
    simp [jsReplaceFuel, h]
  · intro Q rest
    exact ⟨rfl, rfl⟩

/-- Witness for the C2 amended theorem: the single-pass no-rescan equation at
a concrete matcher, input and match. -/
theorem c2_witness :
    jsReplaceFuel (matchFromBare "p = 1".data) 12 false "FROM dataset".data =
      "FROM (SELECT * FROM dataset WHERE p = 1) AS dataset".data ++
        jsReplaceFuel (matchFromBare "p = 1".data) 11 true [] :=
  c2_amended_ordering.1 (matchFromBare "p = 1".data) 11 false 'F' "ROM dataset".data
    "FROM (SELECT * FROM dataset WHERE p = 1) AS dataset".data [] rfl

/-- C3 counterexample: with an empty predicate the rewriter is not the
identity on the query string, because the query is trimmed first. -/
theorem c3_counterexample :
    applyFiltersToDatasetReferences " SELECT 1" "" ≠ " SELECT 1" ∧
    applyFiltersToDatasetReferences " SELECT 1" "" = "SELECT 1" := by
  constructor
  · decide
  · decide

/-- C3 amended: for an empty predicate, or when the word `dataset` does not
occur in the trimmed query, the rewriter returns the query trimmed of
surrounding whitespace but otherwise unchanged. -/
theorem c3_amended_trimmed_identity (q wc : String)
    (h : wc = "" ∨ containsDatasetWord false (trimChars q.data) = false) :
    applyFiltersToDatasetReferences q wc = String.mk (trimChars q.data) := by
  unfold applyFiltersToDatasetReferences
  rcases h with h | h
  · simp [h]
  · by_cases hwc : wc = "" <;> simp [hwc, h]

/-- Witness for C3 at a query without surrounding whitespace and an empty
predicate. -/
theorem c3_witness : applyFiltersToDatasetReferences "SELECT 2" "" = "SELECT 2" :=
  (c3_amended_trimmed_identity "SELECT 2" "" (Or.inl rfl)).trans (by decide)

/-- C4 counterexample: when no extraction path yields an array, the Result
Normalizer returns a hard validation failure, with `isValid` false and an
error message, not `valid: true` with an empty processed set and a warning. -/
theorem c4_counterexample :
    (validateChartData (JsVal.vobj []) cfgBarX).isValid = false ∧
    (validateChartData (JsVal.vobj []) cfgBarX).error =
      some "Could not find data array in response" ∧
    (validateChartData (JsVal.vobj []) cfgBarX).processedData = none ∧
    (validateChartData (JsVal.vobj []) cfgBarX).warning = none :=
  ⟨rfl, rfl, rfl, rfl⟩

/-- C4 amended: whenever the extraction chain finds no array, the Result
Normalizer returns `isValid` false with the error message `Could not find
data array in response`, no processed data and no warning. -/
theorem c4_amended_hard_failure (data : JsVal) (cfg : ChartSpec)
    (h : extractRawData data = none) :
    validateChartData data cfg =
      ⟨false, none, none, some "Could not find data array in response"⟩ := by
  unfold validateChartData
  rw [h]

/-- Witness for C4 at a raw response with no array anywhere. -/
theorem c4_witness :
    validateChartData (JsVal.vnum JsNum.nan) cfgBarX =
      ⟨false, none, none, some "Could not find data array in response"⟩ :=
  c4_amended_hard_failure (JsVal.vnum JsNum.nan) cfgBarX rfl

/-- C5 counterexample: on a non-structural failure of a raw LLM query no
combined error identifying two attempts is reported; the single original
message is reported after exactly one query execution. -/
theorem c5_counterexample :
    runKpiLoad execPermDenied kpiRaw "" =
      (["SELECT bogus FROM dataset"], some "permission denied") ∧
    (runKpiLoad execPermDenied kpiRaw "").1.length = 1 :=
  ⟨rfl, rfl⟩

/-- C5 amended: one fallback is synthesized and executed exactly when the
query carried raw LLM SQL and the failure message contains one of the four
structural substrings; the KPI fallback re-applies the predicate by appending
a WHERE clause; when the fallback also fails a single combined error naming
both messages is reported; when the failure is not structural the original
message alone is reported; never more than two executions happen.  Chart
fallbacks splice the predicate only when an x-axis is configured. -/
theorem c5_amended_fallback_policy (exec : String → Except String Unit)
    (kpi : KpiSpec) (chart : ChartSpec) (wc : String) :
    (runKpiLoad exec kpi wc).1.length ≤ 2 ∧
    (runChartLoad exec chart wc).1.length ≤ 2 ∧
    (exec (primaryKpiQuery kpi wc) = Except.ok () →
      runKpiLoad exec kpi wc = ([primaryKpiQuery kpi wc], none)) ∧
    (∀ msg, exec (primaryKpiQuery kpi wc) = Except.error msg →
      ¬(kpi.sql_query.isSome = true ∧ isStructuralError msg = true) →
      runKpiLoad exec kpi wc = ([primaryKpiQuery kpi wc], some msg)) ∧
    (∀ msg, exec (primaryKpiQuery kpi wc) = Except.error msg →
      kpi.sql_query.isSome = true → isStructuralError msg = true →
      exec (kpiFallbackQuery kpi wc) = Except.ok () →
      runKpiLoad exec kpi wc = ([primaryKpiQuery kpi wc, kpiFallbackQuery kpi wc], none)) ∧
    (∀ msg m2, exec (primaryKpiQuery kpi wc) = Except.error msg →
      kpi.sql_query.isSome = true → isStructuralError msg = true →
      exec (kpiFallbackQuery kpi wc) = Except.error m2 →
      runKpiLoad exec kpi wc = ([primaryKpiQuery kpi wc, kpiFallbackQuery kpi wc],
        some ("LLM query failed: " ++ msg ++ ". Fallback failed: " ++ m2))) ∧
    (wc ≠ "" → ∃ b, kpiFallbackQuery kpi wc = b ++ " WHERE " ++ wc) ∧
    (optTruthy chart.x_axis = false →
      chartFallbackQuery chart wc =
        "SELECT " ++ quoted "No Data" ++ " as category, 0 as count FROM dataset LIMIT 1") ∧
    chartFallbackQuery chartRaw "p = 1" =
      "SELECT region, COUNT(*) as count FROM dataset WHERE p = 1 AND region IS NOT NULL GROUP BY region ORDER BY count DESC LIMIT 10" := by
  refine ⟨?_, ?_, ?_, ?_, ?_, ?_, ?_, ?_, by decide⟩
  · simp only [runKpiLoad]
    cases hq : exec (primaryKpiQuery kpi wc) with
    | ok u => simp
    | error msg =>
        dsimp only
        by_cases hs : kpi.sql_query.isSome = true ∧ isStructuralError msg = true
        · rw [if_pos hs]
          cases exec (kpiFallbackQuery kpi wc) <;> simp
        · rw [if_neg hs]
          simp
  · simp only [runChartLoad]
    cases hq : exec (primaryChartQuery chart wc) with
    | ok u => simp
    | error msg =>
        dsimp only
        by_cases hs : chart.sql_query.isSome = true ∧ isStructuralError msg = true
        · rw [if_pos hs]
          cases exec (chartFallbackQuery chart wc) <;> simp
        · rw [if_neg hs]
          simp
  · intro h
    simp only [runKpiLoad, h]
  · intro msg h hs
    simp only [runKpiLoad, h]
    rw [if_neg hs]
  · intro msg h h1 h2 h3
    simp only [runKpiLoad, h]
    rw [if_pos ⟨h1, h2⟩]
    simp only [h3]
  · intro msg m2 h h1 h2 h3
    simp only [runKpiLoad, h]
    rw [if_pos ⟨h1, h2⟩]
    simp only [h3]
  · intro h
    refine ⟨kpiFallbackBase kpi, ?_⟩
    unfold kpiFallbackQuery
    rw [if_pos h]
  · intro h
    simp [chartFallbackQuery, chartFallbackBase, h]

/-- Witness for C5: the raw KPI query fails with a binder error, exactly one
fallback is synthesized and executed, and it succeeds. -/
theorem c5_witness :
    runKpiLoad execBinder kpiRaw "" =
      (["SELECT bogus FROM dataset",
        "SELECT COALESCE(SUM(amount), 0) as value FROM dataset"], none) :=
  (c5_amended_fallback_policy execBinder kpiRaw chartRaw "").2.2.2.2.1
    "Binder Error: bogus" rfl rfl (by decide) rfl

/-- C6 counterexample: the Declarative Query Builder writes the value alias
with a lower-case `as`, so neither the builder output nor the rewritten query
equals the claimed strings, which use `AS value`. -/
theorem c6_counterexample :
    buildChartQuery chartC6 "" ≠
      "SELECT month, SUM(revenue) AS value FROM dataset GROUP BY month" ∧
    applyFiltersToDatasetReferences (buildChartQuery chartC6 "")
        (buildWhereClause declsC6 [("region", FVal.fstr "EU")]) ≠
      "SELECT month, SUM(revenue) AS value FROM (SELECT * FROM dataset WHERE region = " ++
        quoted "EU" ++ ") AS dataset GROUP BY month" := by
  constructor
  · decide
  · decide

/-- C6 amended: for the scenario filter state and chart specification, the
builder emits `SELECT month, SUM(revenue) as value FROM dataset GROUP BY
month` (lower-case as), the clause builder emits `region = hyphen-quoted EU`,
and the rewriter wraps the base table in the filtered derived relation,
leaving the rest of the query unchanged. -/
theorem c6_amended_scenario :
    buildChartQuery chartC6 "" =
      "SELECT month, SUM(revenue) as value FROM dataset GROUP BY month" ∧
    buildWhereClause declsC6 [("region", FVal.fstr "EU")] = "region = " ++ quoted "EU" ∧
    applyFiltersToDatasetReferences
        "SELECT month, SUM(revenue) as value FROM dataset GROUP BY month"
        ("region = " ++ quoted "EU") =
      "SELECT month, SUM(revenue) as value FROM (SELECT * FROM dataset WHERE region = " ++
        quoted "EU" ++ ") AS dataset GROUP BY month" := by
  refine ⟨by decide, by decide, by decide⟩

/-- C7: a KPI specification without raw SQL whose value column is not the
wildcard, whose calculation is not one of the recognized tokens, and which
does not hit the percentage-rate cases, builds COUNT of the value column,
never SUM. -/
theorem c7_default_count (kpi : KpiSpec)
    (h1 : kpi.value_column ≠ "*")
    (h2 : toLowerStr kpi.calculation ∉
      ["count", "sum", "avg", "average", "mean", "max", "min"])
    (h3 : ¬(kpi.format_type = "percentage" ∧
      strContains (toLowerStr kpi.name) "rate" = true)) :
    buildKpiQuery kpi = "SELECT COUNT(" ++ kpi.value_column ++ ") as value FROM dataset" := by
  simp only [List.mem_cons, List.mem_singleton, not_or] at h2
  obtain ⟨hc, hs, ha, hav, hm, hmx, hmn⟩ := h2
  unfold buildKpiQuery
  simp [h1, hc, hs, ha, hav, hm, hmx, hmn, h3]

/-- Witness for C7 at a KPI with calculation `bogus`. -/
theorem c7_witness : buildKpiQuery kpiBogus = "SELECT COUNT(col) as value FROM dataset" :=
  c7_default_count kpiBogus (by decide) (by decide) (by decide)

/-- C8 counterexample: the bound `Infinity` does not parse as a finite number,
yet the Filter Clause Builder emits its condition, because the source only
tests for NaN. -/
theorem c8_counterexample :
    conditionsFor "numeric_range" "amount" (FVal.fobj (some "Infinity") none none none) =
      ["amount >= Infinity"] ∧
    parseFloat "Infinity" = JsNum.inf false := by
  constructor
  · decide
  · decide

/-- C8 amended: numeric-range bounds contribute independent conditions, and a
bound contributes exactly when it is present, non-empty, and parses as a
number under `parseFloat` (NaN excluded, infinities included); a missing or
non-numeric bound never suppresses the other bound. -/
theorem c8_amended_independent_bounds (col : String) (mn mx : Option String) :
    conditionsFor "numeric_range" col (FVal.fobj mn mx none none) =
      numericBoundCond col " >= " mn ++ numericBoundCond col " <= " mx ∧
    conditionsFor "numeric_range" col (FVal.fobj mn mx none none) =
      conditionsFor "numeric_range" col (FVal.fobj mn none none none) ++
        conditionsFor "numeric_range" col (FVal.fobj none mx none none) ∧
    (∀ s : String, (numericBoundCond col " >= " (some s) ≠ []) ↔
      (s ≠ "" ∧ parseFloat s ≠ JsNum.nan)) ∧
    (∀ s : String, numericBoundCond col " <= " (some s) =
      if s ≠ "" ∧ parseFloat s ≠ JsNum.nan
      then [col ++ " <= " ++ renderJsNum (parseFloat s)] else []) := by
  refine ⟨rfl, ?_, ?_, ?_⟩
  · simp [conditionsFor, numericBoundCond]
  · intro s
    by_cases h1 : s = ""
    · simp [numericBoundCond, h1]
    · by_cases h2 : parseFloat s = JsNum.nan <;> simp [numericBoundCond, h1, h2]
  · intro s
    by_cases h1 : s = ""
    · simp [numericBoundCond, h1]
    · by_cases h2 : parseFloat s = JsNum.nan <;> simp [numericBoundCond, h1, h2]

/-- C9 counterexample: a single row with a null x value is dropped by the
cleaning step, but since cleaning then yields no rows the validator falls
back to the raw rows, so the surviving row does not satisfy the non-blank
axis guarantee. -/
theorem c9_counterexample :
    (validateChartData (JsVal.varr [rowNullX]) cfgBarX).processedData = some [rowNullX] ∧
    rowKeep cfgBarX rowNullX = false ∧
    (validateChartData (JsVal.varr [rowNullX]) cfgBarX).isValid = true :=
  ⟨rfl, rfl, rfl⟩

/-- C9 amended: with an x-axis configured, cleaning keeps exactly the rows
whose configured axis values are non-null and non-blank and applies numeric
coercion to them; the validator uses the cleaned rows only when at least one
row survives, falling back to the uncleaned raw rows otherwise, so the
non-blank guarantee holds only when some row survives cleaning. -/
theorem c9_amended_cleaning (cfg : ChartSpec) (data : JsVal) (rows : List JsVal)
    (hx : optTruthy cfg.x_axis = true)
    (he : extractRawData data = some rows) (hne : rows ≠ []) :
    cleanChartData rows cfg = (rows.filter (rowKeep cfg)).map (coerceRow cfg) ∧
    (∀ r ∈ rows.filter (rowKeep cfg), rowKeep cfg r = true) ∧
    (validateChartData data cfg).processedData =
      some (if (cleanChartData rows cfg).length > 0 then cleanChartData rows cfg else rows) := by
  refine ⟨?_, ?_, ?_⟩
  · simp [cleanChartData, hx]
  · intro r hr
    exact (List.mem_filter.mp hr).2
  · have hlen : ¬(rows.length = 0) := by
      simpa [List.length_eq_zero] using hne
    simp only [validateChartData, he]
    rw [if_neg hlen]
    simp [processedRows, hx]

/-- Witness for C9: the all-null-row input exercises the raw-rows fallback. -/
theorem c9_witness :
    (validateChartData (JsVal.varr [rowNullX]) cfgBarX).processedData =
      some (if (cleanChartData [rowNullX] cfgBarX).length > 0
            then cleanChartData [rowNullX] cfgBarX else [rowNullX]) :=
  (c9_amended_cleaning cfgBarX (JsVal.varr [rowNullX]) [rowNullX] (by decide) rfl
    (List.cons_ne_nil _ _)).2.2

/-- C10: a date-range filter with both bounds present interpolates them
verbatim, without doubling embedded single quotes, in contrast to categorical
values, which are escaped by doubling; a date value containing a single quote
therefore reaches the predicate unescaped. -/
theorem c10_date_range_verbatim :
    (∀ col s e : String, s ≠ "" → e ≠ "" →
      conditionsFor "date_range" col (FVal.fobj none none (some s) (some e)) =
        [col ++ " BETWEEN " ++ quoted s ++ " AND " ++ quoted e]) ∧
    (∀ col s : String, s ≠ "" →
      conditionsFor "categorical" col (FVal.fstr s) =
        [col ++ " = " ++ quoted (escapeQuotes s)]) ∧
    conditionsFor "date_range" "day" (FVal.fobj none none (some ("19" ++ sq ++ "99"))
        (some "2020-01-01")) =
      ["day BETWEEN " ++ quoted ("19" ++ sq ++ "99") ++ " AND " ++ quoted "2020-01-01"] ∧
    conditionsFor "categorical" "day" (FVal.fstr ("19" ++ sq ++ "99")) =
      ["day = " ++ quoted ("19" ++ sq ++ sq ++ "99")] := by
  refine ⟨?_, ?_, by decide, by decide⟩
  · intro col s e hs he
    simp [conditionsFor, hs, he]
  · intro col s hs
    simp [conditionsFor, hs]

/-- Witness for C10 at concrete dates. -/
theorem c10_witness :
    conditionsFor "date_range" "day"
        (FVal.fobj none none (some "2020-01-01") (some "2020-02-01")) =
      ["day BETWEEN " ++ quoted "2020-01-01" ++ " AND " ++ quoted "2020-02-01"] :=
  c10_date_range_verbatim.1 "day" "2020-01-01" "2020-02-01" (by decide) (by decide)

end Autocurate
